import Mathlib

/-!
Shallow embedding of `src/gemini.py` (a Telegram chat relay with a
registration gate): the data model, the four event handlers with explicit
failure environments for every external call, and the startup configuration
check.  External effects (chat replies, inference calls, document-store
writes) are made observable as data so that the handlers' behaviour can be
stated and proved.
-/

namespace Gemini

/-- One document of the `users` collection (the User Directory).
Timestamps are abstracted as natural numbers. -/
structure UserRec where
  chat_id : Int
  registered : Bool
  first_name : Option String
  username : Option String
  phone_number : Option String
  created_at : Nat
  last_interaction : Nat
deriving DecidableEq, Repr

/-- One document of the `files` collection (the image-analysis log). -/
structure FileRec where
  user_id : Int
  file_id : String
  analysis : String
  timestamp : Nat
deriving DecidableEq, Repr

/-- Reply markup attached to an outgoing message. -/
inductive Markup
  | contactKeyboard
  | removeKeyboard
  | plain
deriving DecidableEq, Repr

/-- An outgoing chat message: its text and the keyboard markup passed to
`reply_text`. -/
structure Msg where
  text : String
  markup : Markup
deriving DecidableEq, Repr

/-- The names the module imports from the `telegram` package
(`from telegram import Update, ReplyKeyboardMarkup, KeyboardButton`). -/
def telegramImportedNames : List String :=
  ["Update", "ReplyKeyboardMarkup", "KeyboardButton"]

/-- Whether the global name `ReplyKeyboardRemove` is bound in the module.
It is referenced in four `reply_text` calls but never imported or defined,
so evaluating `ReplyKeyboardRemove()` raises `NameError` at call time. -/
def replyKeyboardRemoveDefined : Bool :=
  telegramImportedNames.contains "ReplyKeyboardRemove"

/-- Model of `await update.message.reply_text(text, reply_markup=...)`.
`ok` says whether delivery succeeds when attempted; `sent` is the list of
messages delivered so far.  Returns `none` when the call raises: either the
`NameError` from evaluating the missing `ReplyKeyboardRemove` (raised while
building the arguments, before anything is sent) or a delivery failure. -/
def sendReply (ok : Bool) (m : Msg) (sent : List Msg) : Option (List Msg) :=
  if m.markup = Markup.removeKeyboard ∧ replyKeyboardRemoveDefined = false then
    none
  else if ok then some (sent ++ [m]) else none

/-- `find_one(filter)`: the first document matching the predicate. -/
def findOne (db : List UserRec) (p : UserRec → Bool) : Option UserRec :=
  db.find? p

/-- `update_one` with a `chat_id` filter and a `$set` update `f`: updates the
first matching document and reports `modified_count` (0 when no document
matches or when `$set` leaves the matched document unchanged). -/
def updateOneUsers (db : List UserRec) (c : Int) (f : UserRec → UserRec) :
    List UserRec × Nat :=
  match db with
  | [] => ([], 0)
  | u :: rest =>
    if u.chat_id = c then
      (f u :: rest, if f u = u then 0 else 1)
    else
      let r := updateOneUsers rest c f
      (u :: r.1, r.2)

/-! ### Message constants, verbatim from the handlers -/

def startNewMsg : Msg :=
  ⟨"Welcome! Please share your phone number to register:", Markup.contactKeyboard⟩

def startReadyMsg : Msg :=
  ⟨"Welcome back! You're fully registered and ready to chat!", Markup.removeKeyboard⟩

def startIncompleteMsg : Msg :=
  ⟨"⚠️ Registration incomplete. Please share your contact:", Markup.contactKeyboard⟩

def startErrMsg : Msg :=
  ⟨"Service temporary unavailable. Please try again later.", Markup.plain⟩

def contactOkMsg : Msg :=
  ⟨"✅ Registration successful! Ask me anything:", Markup.removeKeyboard⟩

def contactFailMsg : Msg :=
  ⟨"⚠️ Registration failed. Please try /start", Markup.removeKeyboard⟩

def contactErrMsg : Msg :=
  ⟨"❌ Registration error. Please try again.", Markup.plain⟩

def gateMsg : Msg :=
  ⟨"⚠️ Complete registration first!\nUse /start and share your contact.", Markup.removeKeyboard⟩

def textErrMsg : Msg :=
  ⟨"❌ Error processing your message", Markup.plain⟩

def imageErrMsg : Msg :=
  ⟨"❌ Failed to analyze image", Markup.plain⟩

def imagePrompt : String := "Analyze this image:"

/-! ### `/start` handler -/

/-- Failure environment for one `start` invocation: whether each external
call succeeds when reached. -/
structure StartEnv where
  findOk : Bool
  insertOk : Bool
  sendOk : Bool
  errSendOk : Bool
deriving Repr

structure StartOut where
  replies : List Msg
  users : List UserRec
deriving DecidableEq, Repr

/-- The `except` branch of `start`: reply with the generic unavailable
message (plain text, so it cannot raise the `NameError`). -/
def startExcept (env : StartEnv) (db : List UserRec) (sent : List Msg) : StartOut :=
  if env.errSendOk then ⟨sent ++ [startErrMsg], db⟩ else ⟨sent, db⟩

/-- `start(update, context)`: look up the user; insert a fresh unregistered
record and prompt for contact when absent; greet or re-prompt when present.
Both `datetime.now` calls of the insert are abstracted as the single
invocation time `now`. -/
def start (env : StartEnv) (db : List UserRec) (chat : Int)
    (fn un : Option String) (now : Nat) : StartOut :=
  if env.findOk then
    match findOne db (fun u => u.chat_id == chat) with
    | none =>
      if env.insertOk then
        let db2 := db ++ [⟨chat, false, fn, un, none, now, now⟩]
        match sendReply env.sendOk startNewMsg [] with
        | some sent => ⟨sent, db2⟩
        | none => startExcept env db2 []
      else startExcept env db []
    | some u =>
      if u.registered then
        match sendReply env.sendOk startReadyMsg [] with
        | some sent => ⟨sent, db⟩
        | none => startExcept env db []
      else
        match sendReply env.sendOk startIncompleteMsg [] with
        | some sent => ⟨sent, db⟩
        | none => startExcept env db []
  else startExcept env db []

/-! ### Contact handler -/

structure ContactEnv where
  updateOk : Bool
  sendOk : Bool
  errSendOk : Bool
deriving Repr

structure ContactOut where
  replies : List Msg
  users : List UserRec
deriving DecidableEq, Repr

/-- The `$set` document of `handle_contact`. -/
def contactSet (phone : String) (now : Nat) (u : UserRec) : UserRec :=
  { u with phone_number := some phone, registered := true, last_interaction := now }

/-- The `except` branch of `handle_contact`. -/
def contactExcept (env : ContactEnv) (db : List UserRec) : ContactOut :=
  if env.errSendOk then ⟨[contactErrMsg], db⟩ else ⟨[], db⟩

/-- `handle_contact(update, context)`: atomically set phone number,
`registered` and `last_interaction`, then branch on `modified_count`. -/
def handle_contact (env : ContactEnv) (db : List UserRec) (chat : Int)
    (phone : String) (now : Nat) : ContactOut :=
  if env.updateOk then
    let r := updateOneUsers db chat (contactSet phone now)
    if r.2 = 1 then
      match sendReply env.sendOk contactOkMsg [] with
      | some sent => ⟨sent, r.1⟩
      | none => contactExcept env r.1
    else
      match sendReply env.sendOk contactFailMsg [] with
      | some sent => ⟨sent, r.1⟩
      | none => contactExcept env r.1
  else contactExcept env db

/-! ### Text handler -/

structure TextEnv where
  findOk : Bool
  geminiOk : Bool
  geminiText : String
  sendOk : Bool
  updateOk : Bool
  errSendOk : Bool
deriving Repr

structure TextOut where
  replies : List Msg
  users : List UserRec
  geminiCalls : List String
deriving DecidableEq, Repr

/-- The `except` branch of `handle_message`. -/
def textExcept (env : TextEnv) (sent : List Msg) (db : List UserRec)
    (calls : List String) : TextOut :=
  if env.errSendOk then ⟨sent ++ [textErrMsg], db, calls⟩ else ⟨sent, db, calls⟩

/-- The `$set` document of the text handler's interaction-time update. -/
def setLastInteraction (now : Nat) (u : UserRec) : UserRec :=
  { u with last_interaction := now }

/-- `handle_message(update, context)`: gate on a registered record, forward
the text to the model, reply, then update `last_interaction`.
`geminiCalls` records every prompt sent to the Inference Adapter. -/
def handle_message (env : TextEnv) (db : List UserRec) (chat : Int)
    (text : String) (now : Nat) : TextOut :=
  if env.findOk then
    match findOne db (fun u => u.chat_id == chat && u.registered) with
    | none =>
      match sendReply env.sendOk gateMsg [] with
      | some sent => ⟨sent, db, []⟩
      | none => textExcept env [] db []
    | some _ =>
      if env.geminiOk then
        match sendReply env.sendOk ⟨env.geminiText, Markup.plain⟩ [] with
        | some sent =>
          if env.updateOk then
            ⟨sent, (updateOneUsers db chat (setLastInteraction now)).1, [text]⟩
          else textExcept env sent db [text]
        | none => textExcept env [] db [text]
      else textExcept env [] db [text]
  else textExcept env [] db []

/-! ### Image handler -/

structure ImageEnv where
  getFileOk : Bool
  downloadOk : Bool
  decodeOk : Bool
  geminiOk : Bool
  geminiText : String
  insertOk : Bool
  sendOk : Bool
  errSendOk : Bool
deriving Repr

structure ImageOut where
  replies : List Msg
  files : List FileRec
  users : List UserRec
  geminiCalls : List String
deriving DecidableEq, Repr

/-- The `except` branch of `handle_image`. -/
def imageExcept (env : ImageEnv) (files : List FileRec) (users : List UserRec)
    (calls : List String) : ImageOut :=
  if env.errSendOk then ⟨[imageErrMsg], files, users, calls⟩
  else ⟨[], files, users, calls⟩

/-- `handle_image(update, context)`: fetch, download and decode the photo,
call the model with the fixed prompt, insert the Interaction record, then
reply with the analysis.  The handler never references the users
collection, so `users` is passed through untouched. -/
def handle_image (env : ImageEnv) (files : List FileRec) (users : List UserRec)
    (chat : Int) (fileId : String) (now : Nat) : ImageOut :=
  if env.getFileOk then
    if env.downloadOk then
      if env.decodeOk then
        if env.geminiOk then
          if env.insertOk then
            let files2 := files ++ [⟨chat, fileId, env.geminiText, now⟩]
            match sendReply env.sendOk ⟨env.geminiText, Markup.plain⟩ [] with
            | some sent => ⟨sent, files2, users, [imagePrompt]⟩
            | none => imageExcept env files2 users [imagePrompt]
          else imageExcept env files users [imagePrompt]
        else imageExcept env files users [imagePrompt]
      else imageExcept env files users []
    else imageExcept env files users []
  else imageExcept env files users []

/-! ### Startup configuration -/

/-- The six required environment variables, in source order. -/
def requiredVars : List String :=
  ["TELEGRAM_TOKEN", "GEMINI_API_KEY", "MONGODB_USERNAME",
   "MONGODB_PASSWORD", "MONGODB_HOST", "MONGODB_DBNAME"]

/-- Python truthiness of `os.getenv(var)`: unset and empty are both falsy. -/
def getenvTruthy (env : String → Option String) (v : String) : Bool :=
  match env v with
  | none => false
  | some s => decide (s ≠ "")

/-- The `missing_vars` list of `validate_configuration`. -/
def missing_vars (env : String → Option String) : List String :=
  requiredVars.filter (fun v => !getenvTruthy env v)

def configErrorMsg : String := "Missing required environment variables"

/-- `validate_configuration()`: raises when any required variable is falsy. -/
def validate_configuration (env : String → Option String) : Except String Unit :=
  if missing_vars env = [] then Except.ok () else Except.error configErrorMsg

/-- The externally visible startup steps of `main`, in source order. -/
inductive MainAction
  | buildApplication
  | connectMongo
  | connectGemini
  | registerHandlers
  | runPolling
deriving DecidableEq, Repr

/-- `main()`: validate configuration first; on failure nothing else runs and
the error propagates (second component).  On success the startup steps run
in order. -/
def main (env : String → Option String) : List MainAction × Option String :=
  match validate_configuration env with
  | Except.error e => ([], some e)
  | Except.ok _ =>
    ([MainAction.buildApplication, MainAction.connectMongo,
      MainAction.connectGemini, MainAction.registerHandlers,
      MainAction.runPolling], none)

end Gemini

namespace Gemini

/-! ### Helper lemmas -/

theorem replyKeyboardRemove_missing : replyKeyboardRemoveDefined = false := rfl

theorem sendReply_mk_remove (ok : Bool) (t : String) (sent : List Msg) :
    sendReply ok ⟨t, Markup.removeKeyboard⟩ sent = none := by
  simp [sendReply, replyKeyboardRemoveDefined, telegramImportedNames]

theorem sendReply_mk_plain (ok : Bool) (t : String) (sent : List Msg) :
    sendReply ok ⟨t, Markup.plain⟩ sent =
      if ok then some (sent ++ [⟨t, Markup.plain⟩]) else none := by
  simp [sendReply]

theorem sendReply_mk_contact (ok : Bool) (t : String) (sent : List Msg) :
    sendReply ok ⟨t, Markup.contactKeyboard⟩ sent =
      if ok then some (sent ++ [⟨t, Markup.contactKeyboard⟩]) else none := by
  simp [sendReply]

theorem textExcept_users (env : TextEnv) (sent : List Msg) (db : List UserRec)
    (calls : List String) : (textExcept env sent db calls).users = db := by
  unfold textExcept
  split <;> rfl

/-- The update branch is the only place `handle_message` touches the users
collection: the final state is the input state or the single-field update. -/
theorem handle_message_users (env : TextEnv) (db : List UserRec) (chat : Int)
    (text : String) (now : Nat) :
    (handle_message env db chat text now).users = db ∨
    (handle_message env db chat text now).users =
      (updateOneUsers db chat (setLastInteraction now)).1 := by
  unfold handle_message
  split
  · split
    · split
      · exact Or.inl rfl
      · exact Or.inl (textExcept_users ..)
    · split
      · split
        · split
          · exact Or.inr rfl
          · exact Or.inl (textExcept_users ..)
        · exact Or.inl (textExcept_users ..)
      · exact Or.inl (textExcept_users ..)
  · exact Or.inl (textExcept_users ..)

theorem updateOneUsers_forall2 (db : List UserRec) (c : Int)
    (f : UserRec → UserRec) :
    List.Forall₂ (fun a b => b = a ∨ (a.chat_id = c ∧ b = f a)) db
      (updateOneUsers db c f).1 := by
  induction db with
  | nil => exact List.Forall₂.nil
  | cons u rest ih =>
    by_cases h : u.chat_id = c
    · simp only [updateOneUsers, if_pos h]
      exact List.Forall₂.cons (Or.inr ⟨h, rfl⟩)
        (List.forall₂_same.mpr fun x _ => Or.inl rfl)
    · simp only [updateOneUsers, if_neg h]
      exact List.Forall₂.cons (Or.inl rfl) ih

theorem updateOneUsers_mem (db : List UserRec) (c : Int) (f : UserRec → UserRec)
    (h : ∃ u ∈ db, u.chat_id = c) :
    ∃ u ∈ db, u.chat_id = c ∧ f u ∈ (updateOneUsers db c f).1 := by
  induction db with
  | nil => simp at h
  | cons v rest ih =>
    by_cases hv : v.chat_id = c
    · exact ⟨v, List.mem_cons_self v rest, hv, by simp [updateOneUsers, hv]⟩
    · obtain ⟨u, hu, hc⟩ := h
      rcases List.mem_cons.mp hu with rfl | hmem
      · exact absurd hc hv
      · obtain ⟨u', hu', hc', hf⟩ := ih ⟨u, hmem, hc⟩
        refine ⟨u', List.mem_cons_of_mem _ hu', hc', ?_⟩
        simp only [updateOneUsers, if_neg hv]
        exact List.mem_cons_of_mem _ hf

theorem updateOneUsers_mono (db : List UserRec) (c : Int) (now : Nat)
    (h : ∀ u ∈ db, u.last_interaction ≤ now) :
    List.Forall₂ (fun a b => a.last_interaction ≤ b.last_interaction) db
      (updateOneUsers db c (setLastInteraction now)).1 := by
  induction db with
  | nil => exact List.Forall₂.nil
  | cons u rest ih =>
    by_cases hc : u.chat_id = c
    · simp only [updateOneUsers, if_pos hc]
      exact List.Forall₂.cons (h u (List.mem_cons_self u rest))
        (List.forall₂_same.mpr fun x _ => le_refl _)
    · simp only [updateOneUsers, if_neg hc]
      exact List.Forall₂.cons (le_refl _)
        (ih fun u hu => h u (List.mem_cons_of_mem _ hu))

/-- On the full success path the text handler replies with the model output
and commits the `last_interaction` update. -/
theorem handle_message_success (env : TextEnv) (db : List UserRec) (chat : Int)
    (text : String) (now : Nat) (u : UserRec)
    (hf : env.findOk = true) (hg : env.geminiOk = true) (hs : env.sendOk = true)
    (hu : env.updateOk = true)
    (hfind : findOne db (fun w => w.chat_id == chat && w.registered) = some u) :
    handle_message env db chat text now =
      ⟨[⟨env.geminiText, Markup.plain⟩],
        (updateOneUsers db chat (setLastInteraction now)).1, [text]⟩ := by
  simp [handle_message, hf, hfind, hg, hs, hu, sendReply_mk_plain]

/-- The image handler never references the users collection. -/
theorem handle_image_users (env : ImageEnv) (files : List FileRec)
    (users : List UserRec) (chat : Int) (fileId : String) (now : Nat) :
    (handle_image env files users chat fileId now).users = users := by
  unfold handle_image imageExcept
  split
  · split
    · split
      · split
        · split
          · split
            · rfl
            · split <;> rfl
          · split <;> rfl
        · split <;> rfl
      · split <;> rfl
    · split <;> rfl
  · split <;> rfl

/-- With the update succeeding, `handle_contact` always ends in the `except`
branch (both outcome replies raise the `NameError`), delivering the generic
registration-error message over the already-updated collection. -/
theorem handle_contact_eq (env : ContactEnv) (db : List UserRec) (chat : Int)
    (phone : String) (now : Nat)
    (hu : env.updateOk = true) (he : env.errSendOk = true) :
    handle_contact env db chat phone now =
      ⟨[contactErrMsg], (updateOneUsers db chat (contactSet phone now)).1⟩ := by
  simp only [handle_contact, hu, if_true]
  split
  · rw [show contactOkMsg = ⟨contactOkMsg.text, Markup.removeKeyboard⟩ from rfl,
      sendReply_mk_remove]
    simp [contactExcept, he]
  · rw [show contactFailMsg = ⟨contactFailMsg.text, Markup.removeKeyboard⟩ from rfl,
      sendReply_mk_remove]
    simp [contactExcept, he]

end Gemini

namespace Gemini

/-! ### Concrete inputs used by witnesses and counterexamples -/

/-- A fully cooperative environment for the text handler. -/
def envAllOkT : TextEnv := ⟨true, true, "model reply", true, true, true⟩

/-- Text-handler environment where only the `last_interaction` write fails. -/
def envTNoUpdate : TextEnv := ⟨true, true, "model reply", true, false, true⟩

/-- Image-handler environment where only the final reply delivery fails. -/
def envImgNoSend : ImageEnv := ⟨true, true, true, true, "an output", true, false, true⟩

/-- A fully cooperative environment for the image handler. -/
def envImgAllOk : ImageEnv := ⟨true, true, true, true, "desc", true, true, true⟩

/-- A directory holding one unregistered user with chat id 7. -/
def db0 : List UserRec := [⟨7, false, some "Bo", none, none, 0, 0⟩]

/-- A directory holding one unregistered user with chat id 42. -/
def dbContact : List UserRec := [⟨42, false, some "A", none, none, 0, 0⟩]

/-- A directory holding one registered user with chat id 42 and
`last_interaction` 3. -/
def dbReg : List UserRec := [⟨42, true, some "A", none, some "+1555", 0, 3⟩]

/-! ### Claim theorems -/

/-- Claim C1 (code bug): a text from a chat with no registered record makes
no inference call and leaves the directory untouched, but — because the
reply call evaluates the never-imported `ReplyKeyboardRemove` and raises
`NameError` — the chat receives the generic processing-error message instead
of the registration instruction the handler was meant to send. -/
theorem c1_gate_reply_divergence :
    handle_message envAllOkT db0 7 "hi" 5 = ⟨[textErrMsg], db0, []⟩ ∧
    textErrMsg.text ≠ gateMsg.text := by
  exact ⟨rfl, by decide⟩

/-- Claim C2 (code bug): on a contact share both update outcomes are
reached, the record is committed, but both outcome replies evaluate the
never-imported `ReplyKeyboardRemove` and raise `NameError`, so the chat
receives the generic registration-error message in the one-modified case
and in the zero-modified case alike — never the confirmation or the
retry-start advice. -/
theorem c2_contact_reply_divergence :
    handle_contact ⟨true, true, true⟩ dbContact 42 "+15551234567" 9 =
      ⟨[contactErrMsg], [⟨42, true, some "A", none, some "+15551234567", 0, 9⟩]⟩ ∧
    handle_contact ⟨true, true, true⟩ [] 42 "+15551234567" 9 =
      ⟨[contactErrMsg], []⟩ ∧
    contactErrMsg.text ≠ contactOkMsg.text ∧
    contactErrMsg.text ≠ contactFailMsg.text := by
  refine ⟨rfl, rfl, by decide, by decide⟩

/-- Claim C6 (code bug): a start command from a registered user performs no
database write, but the ready greeting evaluates the never-imported
`ReplyKeyboardRemove` and raises `NameError`, so the chat receives the
generic unavailable message instead of the welcome-back greeting. -/
theorem c6_start_registered_divergence :
    start ⟨true, true, true, true⟩ dbReg 42 (some "A") none 9 =
      ⟨[startErrMsg], dbReg⟩ ∧
    startErrMsg.text ≠ startReadyMsg.text := by
  exact ⟨rfl, by decide⟩

/-- Claim C3 counterexample: with every step succeeding except the final
reply delivery, the Interaction record is written (the insert precedes the
reply) while the chat receives the failure message — refuting "a record is
written only if the reply was a successful analysis". -/
theorem c3_counterexample :
    (handle_image envImgNoSend [] [] 42 "file1" 5).files =
      [⟨42, "file1", "an output", 5⟩] ∧
    (handle_image envImgNoSend [] [] 42 "file1" 5).replies = [imageErrMsg] := by
  exact ⟨rfl, rfl⟩

/-- Claim C3 (amended): an Interaction record is written if and only if
file retrieval, download, decode, inference and the insert itself all
succeed; a decode or inference failure writes no record, but a reply
failure after the insert leaves the record in place. -/
theorem c3_files_characterization (env : ImageEnv) (files : List FileRec)
    (users : List UserRec) (chat : Int) (fileId : String) (now : Nat) :
    (handle_image env files users chat fileId now).files =
      files ++
        (if env.getFileOk ∧ env.downloadOk ∧ env.decodeOk ∧ env.geminiOk ∧
            env.insertOk
          then [⟨chat, fileId, env.geminiText, now⟩] else []) := by
  obtain ⟨a, b, c, d, t, i, s, e⟩ := env
  cases a <;> cases b <;> cases c <;> cases d <;> cases i <;> cases s <;>
    cases e <;> simp [handle_image, imageExcept, sendReply_mk_plain]

end Gemini

namespace Gemini

/-- Claim C4 counterexample: a registered user whose inference and reply
succeed but whose `last_interaction` write fails receives two replies, the
model output and then the generic error — refuting "exactly one reply
regardless of where a failure occurs". -/
theorem c4_counterexample :
    (handle_message envTNoUpdate dbReg 42 "hello" 9).replies =
      [⟨"model reply", Markup.plain⟩, textErrMsg] ∧
    (handle_message envTNoUpdate dbReg 42 "hello" 9).replies.length ≠ 1 := by
  exact ⟨rfl, by decide⟩

/-- Claim C4 (amended): provided the error-reply delivery works, every
inbound text gets exactly one reply, except that a failing `last_interaction`
write after a successfully delivered inference reply produces two replies
(the result, then the generic error). -/
theorem c4_reply_count (env : TextEnv) (db : List UserRec) (chat : Int)
    (text : String) (now : Nat) (he : env.errSendOk = true) :
    (handle_message env db chat text now).replies.length = 1 ∨
    ((handle_message env db chat text now).replies.length = 2 ∧
      env.geminiOk = true ∧ env.sendOk = true ∧ env.updateOk = false) := by
  obtain ⟨fOk, gOk, gTxt, sOk, uOk, eOk⟩ := env
  cases eOk
  · simp at he
  · cases fOk
    · left; simp [handle_message, textExcept]
    · cases hfind : findOne db (fun u => u.chat_id == chat && u.registered) with
      | none =>
        left
        simp [handle_message, hfind, gateMsg, sendReply_mk_remove, textExcept]
      | some u =>
        cases gOk
        · left; simp [handle_message, hfind, textExcept]
        · cases sOk
          · left; simp [handle_message, hfind, sendReply_mk_plain, textExcept]
          · cases uOk
            · right
              simp [handle_message, hfind, sendReply_mk_plain, textExcept]
            · left
              simp [handle_message, hfind, sendReply_mk_plain]

/-- Witness for the amended C4 at a concrete input. -/
theorem c4_reply_count_witness :
    envAllOkT.errSendOk = true ∧
    ((handle_message envAllOkT [] 7 "hi" 0).replies.length = 1 ∨
      ((handle_message envAllOkT [] 7 "hi" 0).replies.length = 2 ∧
        envAllOkT.geminiOk = true ∧ envAllOkT.sendOk = true ∧
        envAllOkT.updateOk = false)) :=
  ⟨rfl, c4_reply_count envAllOkT [] 7 "hi" 0 rfl⟩

/-- Claim C5 counterexample: a successfully analysed image from the
registered user with stored `last_interaction` 3, handled at time 9, leaves
the user record — and so `last_interaction` — completely untouched: the
image handler performs no user-record update at all. -/
theorem c5_counterexample :
    (handle_image envImgAllOk [] dbReg 42 "file2" 9).replies =
      [⟨"desc", Markup.plain⟩] ∧
    (handle_image envImgAllOk [] dbReg 42 "file2" 9).users = dbReg ∧
    dbReg = [⟨42, true, some "A", none, some "+1555", 0, 3⟩] := by
  exact ⟨rfl, rfl, rfl⟩

/-- Claim C5 (amended): the text handler keeps `last_interaction`
non-decreasing whenever the invocation time is no older than the stored
values, and on a fully successful gate-passing invocation it commits the
invocation time for the chat's record; the image handler never touches the
users collection, so image events update no `last_interaction`. -/
theorem c5_last_interaction :
    (∀ (env : TextEnv) (db : List UserRec) (chat : Int) (text : String)
        (now : Nat),
      (∀ u ∈ db, u.last_interaction ≤ now) →
      List.Forall₂ (fun a b => a.last_interaction ≤ b.last_interaction) db
        (handle_message env db chat text now).users) ∧
    (∀ (env : TextEnv) (db : List UserRec) (chat : Int) (text : String)
        (now : Nat),
      env.findOk = true → env.geminiOk = true → env.sendOk = true →
      env.updateOk = true →
      (findOne db (fun u => u.chat_id == chat && u.registered)).isSome = true →
      ∃ v ∈ (handle_message env db chat text now).users,
        v.chat_id = chat ∧ v.last_interaction = now) ∧
    (∀ (env : ImageEnv) (files : List FileRec) (users : List UserRec)
        (chat : Int) (fileId : String) (now : Nat),
      (handle_image env files users chat fileId now).users = users) := by
  refine ⟨?_, ?_, fun env files users chat fileId now =>
    handle_image_users env files users chat fileId now⟩
  · intro env db chat text now h
    rcases handle_message_users env db chat text now with hu | hu <;> rw [hu]
    · exact List.forall₂_same.mpr fun x _ => le_refl _
    · exact updateOneUsers_mono db chat now h
  · intro env db chat text now hf hg hs hup hsome
    obtain ⟨u, hfind⟩ := Option.isSome_iff_exists.mp hsome
    have humem : u ∈ db := List.mem_of_find?_eq_some hfind
    have hpred := List.find?_some hfind
    have hchat : u.chat_id = chat := by
      have := (Bool.and_eq_true _ _).mp hpred
      exact eq_of_beq this.1
    rw [handle_message_success env db chat text now u hf hg hs hup hfind]
    obtain ⟨w, hwmem, hwchat, hwout⟩ :=
      updateOneUsers_mem db chat (setLastInteraction now) ⟨u, humem, hchat⟩
    exact ⟨setLastInteraction now w, hwout, hwchat, rfl⟩

/-- Witness for the amended C5 at concrete inputs. -/
theorem c5_last_interaction_witness :
    ((∀ u ∈ dbReg, u.last_interaction ≤ 9) ∧
      List.Forall₂ (fun a b => a.last_interaction ≤ b.last_interaction) dbReg
        (handle_message envAllOkT dbReg 42 "hello" 9).users) ∧
    (∃ v ∈ (handle_message envAllOkT dbReg 42 "hello" 9).users,
      v.chat_id = 42 ∧ v.last_interaction = 9) :=
  ⟨⟨by decide, c5_last_interaction.1 envAllOkT dbReg 42 "hello" 9 (by decide)⟩,
    c5_last_interaction.2.1 envAllOkT dbReg 42 "hello" 9 rfl rfl rfl rfl
      (by decide)⟩

end Gemini

namespace Gemini

/-- Claim C7: a start command from a never-seen chat identity inserts
exactly one record — unregistered, with `created_at` and `last_interaction`
set to the invocation time — and prompts the user to share contact info. -/
theorem c7_start_new_user (env : StartEnv) (db : List UserRec) (chat : Int)
    (fn un : Option String) (now : Nat)
    (hf : env.findOk = true) (hi : env.insertOk = true) (hs : env.sendOk = true)
    (habs : findOne db (fun u => u.chat_id == chat) = none) :
    start env db chat fn un now =
      ⟨[startNewMsg], db ++ [⟨chat, false, fn, un, none, now, now⟩]⟩ := by
  simp [start, hf, habs, hi, startNewMsg, sendReply_mk_contact, hs]

/-- Witness for C7 at a concrete input. -/
theorem c7_start_new_user_witness :
    ((⟨true, true, true, true⟩ : StartEnv).findOk = true ∧
      (⟨true, true, true, true⟩ : StartEnv).insertOk = true ∧
      (⟨true, true, true, true⟩ : StartEnv).sendOk = true ∧
      findOne [] (fun u => u.chat_id == 5) = none) ∧
    start ⟨true, true, true, true⟩ [] 5 (some "N") (some "nn") 7 =
      ⟨[startNewMsg], [⟨5, false, some "N", some "nn", none, 7, 7⟩]⟩ :=
  ⟨⟨rfl, rfl, rfl, rfl⟩,
    c7_start_new_user ⟨true, true, true, true⟩ [] 5 (some "N") (some "nn") 7
      rfl rfl rfl rfl⟩

/-- Claim C8: when a required configuration variable is unset or empty,
`main` aborts during validation: no startup step (application build,
store or model connection, handler registration, polling) runs. -/
theorem c8_missing_config_aborts (env : String → Option String) (v : String)
    (hv : v ∈ requiredVars) (habs : getenvTruthy env v = false) :
    main env = ([], some configErrorMsg) := by
  have hmem : v ∈ missing_vars env :=
    List.mem_filter.mpr ⟨hv, by simp [habs]⟩
  have hne : missing_vars env ≠ [] := List.ne_nil_of_mem hmem
  simp [main, validate_configuration, hne]

/-- Witness for C8 with an entirely empty environment. -/
theorem c8_missing_config_aborts_witness :
    ("TELEGRAM_TOKEN" ∈ requiredVars ∧
      getenvTruthy (fun _ => none) "TELEGRAM_TOKEN" = false) ∧
    main (fun _ => none) = ([], some configErrorMsg) :=
  ⟨⟨by decide, rfl⟩,
    c8_missing_config_aborts (fun _ => none) "TELEGRAM_TOKEN" (by decide) rfl⟩

/-- Claim C9: `handle_contact` commits the registration update before any
reply is attempted; the reply step then fails (it evaluates the missing
`ReplyKeyboardRemove`), the user receives the generic registration-error
message, and the record nonetheless remains registered with the phone
number and interaction time set — the error path does not undo the write. -/
theorem c9_contact_update_survives_reply_failure (env : ContactEnv)
    (db : List UserRec) (chat : Int) (phone : String) (now : Nat)
    (hu : env.updateOk = true) (he : env.errSendOk = true)
    (hex : ∃ u ∈ db, u.chat_id = chat) :
    (handle_contact env db chat phone now).replies = [contactErrMsg] ∧
    ∃ v ∈ (handle_contact env db chat phone now).users,
      v.chat_id = chat ∧ v.registered = true ∧
      v.phone_number = some phone ∧ v.last_interaction = now := by
  rw [handle_contact_eq env db chat phone now hu he]
  obtain ⟨u, humem, hchat, hout⟩ :=
    updateOneUsers_mem db chat (contactSet phone now) hex
  exact ⟨rfl, contactSet phone now u, hout, hchat, rfl, rfl, rfl⟩

/-- Witness for C9 at a concrete input. -/
theorem c9_contact_update_survives_reply_failure_witness :
    ((⟨true, true, true⟩ : ContactEnv).updateOk = true ∧
      (⟨true, true, true⟩ : ContactEnv).errSendOk = true ∧
      ∃ u ∈ dbContact, u.chat_id = 42) ∧
    ((handle_contact ⟨true, true, true⟩ dbContact 42 "+15551234567" 9).replies =
        [contactErrMsg] ∧
      ∃ v ∈ (handle_contact ⟨true, true, true⟩ dbContact 42
          "+15551234567" 9).users,
        v.chat_id = 42 ∧ v.registered = true ∧
        v.phone_number = some "+15551234567" ∧ v.last_interaction = 9) :=
  ⟨⟨rfl, rfl, by decide⟩,
    c9_contact_update_survives_reply_failure ⟨true, true, true⟩ dbContact 42
      "+15551234567" 9 rfl rfl (by decide)⟩

/-- Claim C10: in every execution of the text handler, the only field of any
user record that can change is `last_interaction`: identity, registration
state, phone number, creation time and display names are all preserved,
record by record. -/
theorem c10_text_handler_frame (env : TextEnv) (db : List UserRec)
    (chat : Int) (text : String) (now : Nat) :
    List.Forall₂
      (fun a b => a.chat_id = b.chat_id ∧ a.registered = b.registered ∧
        a.phone_number = b.phone_number ∧ a.created_at = b.created_at ∧
        a.first_name = b.first_name ∧ a.username = b.username)
      db (handle_message env db chat text now).users := by
  rcases handle_message_users env db chat text now with h | h <;> rw [h]
  · exact List.forall₂_same.mpr fun x _ => ⟨rfl, rfl, rfl, rfl, rfl, rfl⟩
  · refine List.Forall₂.imp ?_
      (updateOneUsers_forall2 db chat (setLastInteraction now))
    rintro a b (rfl | ⟨-, rfl⟩)
    · exact ⟨rfl, rfl, rfl, rfl, rfl, rfl⟩
    · exact ⟨rfl, rfl, rfl, rfl, rfl, rfl⟩

end Gemini
